import Mathlib

/-!
Shallow embedding of `src/main.rs` of the `sys-montion` status-query utility.

Modelling conventions:

* Rust strings are modelled as `List Char` (abbreviated `Str`).  All the
  delimiters the program searches for (`'['`, `'%'`, `'\n'`, the literal
  markers `"Mono:"`, `"Front Left:"`, `"[off]"`, `"MemTotal:"`,
  `"MemAvailable:"`) are single-byte ASCII characters, so byte positions of
  their first occurrences and the byte slices taken between them correspond
  exactly to character positions and character slices; the embedding
  therefore works with character indices throughout.
* Filesystem reads and the subprocess spawn are modelled by `Option Str`
  inputs: `none` is an I/O error (`fs::read_to_string` / `Command::output`
  returning `Err`), `some s` a successful read of text `s`.
* Machine integers are modelled as `Int` together with explicit range
  checks.  `str::parse::<i32>` / `::<i64>` fail (and hence the program's
  `unwrap_or` defaults fire) exactly when the text is not an optionally
  signed decimal numeral whose value fits the type.  Arithmetic that can
  panic is checked: `i32mul`/`i64sub` return `none` on overflow (the
  overflow check of debug builds; every theorem below stays inside the
  region where debug and release builds agree, except where a comment says
  otherwise) and `i32div` returns `none` on division by zero.
* A query returns `QRes`: `ok s` for a normally returned string, `err` for
  a propagated `io::Error`, `panic` for an aborting panic.
* `runMain` models `main`: the parsed flag set plus the state of all files
  and the mixer subprocess go in, and `none` (panic) or the printed stdout
  lines, stderr diagnostics (their `: {cause}` suffixes elided) and the
  exit code come out.
-/

/-- Rust strings, modelled as lists of characters. -/
abbrev Str := List Char

/-- `char::is_whitespace` (the Unicode `White_Space` property), as used by
`str::trim` and `str::split_whitespace`. -/
def rustIsWhitespace (c : Char) : Bool :=
  c = ' ' || c = '\t' || c = '\n' || c = '\r' ||
  c.toNat = 11 || c.toNat = 12 || c.toNat = 133 || c.toNat = 160 ||
  c.toNat = 5760 || (8192 ≤ c.toNat && c.toNat ≤ 8202) ||
  c.toNat = 8232 || c.toNat = 8233 || c.toNat = 8239 || c.toNat = 8287 ||
  c.toNat = 12288

/-- `str::trim`: drop leading and trailing whitespace. -/
def rustTrim (s : Str) : Str :=
  ((s.dropWhile rustIsWhitespace).reverse.dropWhile rustIsWhitespace).reverse

/-- `fn read_file(path) = fs::read_to_string(path).map(|s| s.trim().to_string())`.
The argument is the state of the file: `none` models an I/O error. -/
def read_file (content : Option Str) : Option Str := content.map rustTrim

/-- `haystack.contains(needle)` for string needles: `needle` occurs as a
contiguous substring. -/
def strHas (needle : Str) : Str → Bool
  | [] => needle.isEmpty
  | c :: rest => needle.isPrefixOf (c :: rest) || strHas needle rest

/-- Split a string at every occurrence of character `c` (keeping empty
pieces), the building block of `str::lines`. -/
def splitChar (c : Char) : Str → List Str
  | [] => [[]]
  | a :: as =>
    let r := splitChar c as
    if a = c then [] :: r
    else
      match r with
      | [] => [[a]]
      | h :: t => (a :: h) :: t

/-- Strip one trailing carriage return, as `str::lines` does from every
line that was terminated by `"\r\n"`. -/
def stripCR (l : Str) : Str :=
  if l.getLast? = some '\r' then l.dropLast else l

/-- `str::lines`: split at `'\n'`, strip a `'\r'` from pieces that were
followed by a newline, and do not yield a final empty piece after a
trailing newline. -/
def rustLines (s : Str) : List Str :=
  let ps := splitChar '\n' s
  let init := (ps.dropLast).map stripCR
  match ps.getLast? with
  | some [] => init
  | some l => init ++ [l]
  | none => init

/-- Value of a decimal digit, `none` for any other character. -/
def digitVal (c : Char) : Option Nat :=
  if '0' ≤ c && c ≤ '9' then some (c.toNat - 48) else none

/-- Value of a nonempty all-digit string (accumulator form). -/
def digitsValAux : Str → Nat → Option Nat
  | [], acc => some acc
  | c :: cs, acc =>
    match digitVal c with
    | some d => digitsValAux cs (acc * 10 + d)
    | none => none

/-- Value of a nonempty all-digit string; `none` if empty or any character
is not a digit. -/
def digitsVal : Str → Option Nat
  | [] => none
  | c :: cs => digitsValAux (c :: cs) 0

/-- `str::parse` for a signed integer type with range `[lo, hi]`: an
optional `+`/`-` sign followed by at least one decimal digit, value in
range; anything else is a parse error. -/
def parseIntIn (lo hi : Int) (s : Str) : Option Int :=
  let sv : Int × Str :=
    match s with
    | '+' :: r => (1, r)
    | '-' :: r => (-1, r)
    | r => (1, r)
  match digitsVal sv.2 with
  | none => none
  | some n =>
    let v : Int := sv.1 * (n : Int)
    if lo ≤ v ∧ v ≤ hi then some v else none

/-- `i32::MIN` = -(2^31). -/
def i32min : Int := -2147483648

/-- `i32::MAX` = 2^31 - 1. -/
def i32max : Int := 2147483647

/-- `i64::MIN` = -(2^63). -/
def i64min : Int := -9223372036854775808

/-- `i64::MAX` = 2^63 - 1. -/
def i64max : Int := 9223372036854775807

/-- `str::parse::<i32>`. -/
def parse_i32 (s : Str) : Option Int := parseIntIn i32min i32max s

/-- `str::parse::<i64>`. -/
def parse_i64 (s : Str) : Option Int := parseIntIn i64min i64max s

/-- Checked `i32` multiplication; `none` models the arithmetic-overflow
panic of debug builds (release builds would wrap; no theorem below relies
on behaviour outside the agreement region). -/
def i32mul (a b : Int) : Option Int :=
  if i32min ≤ a * b ∧ a * b ≤ i32max then some (a * b) else none

/-- Checked `i32` division; `none` models the division-by-zero panic (in
every build profile) and the `MIN / -1` overflow panic. -/
def i32div (a b : Int) : Option Int :=
  if b = 0 then none
  else if a = i32min ∧ b = -1 then none
  else some (a.tdiv b)

/-- Checked `i64` subtraction; `none` models the arithmetic-overflow panic
of debug builds. -/
def i64sub (a b : Int) : Option Int :=
  if i64min ≤ a - b ∧ a - b ≤ i64max then some (a - b) else none

/-- Outcome of one query function: a returned string, a propagated
`io::Error`, or an aborting panic. -/
inductive QRes where
  | ok (s : Str)
  | err
  | panic
deriving DecidableEq

/-- `get_battery_capacity`: read and trim `<battery_path>capacity`. -/
def get_battery_capacity (capacity : Option Str) : Option Str := read_file capacity

/-- `get_battery_status`: read and trim `<battery_path>status`. -/
def get_battery_status (status : Option Str) : Option Str := read_file status

/-- The substring `"[off]"` searched for by the volume query. -/
def offMark : Str := ("[off]").toList

/-- The substring `"Mono:"`. -/
def monoMark : Str := ("Mono:").toList

/-- The substring `"Front Left:"`. -/
def frontLeftMark : Str := ("Front Left:").toList

/-- A line matching the volume pattern:
`line.contains("Mono:") || line.contains("Front Left:")`. -/
def volPat (l : Str) : Bool := strHas monoMark l || strHas frontLeftMark l

/-- A pattern line on which the extraction actually fires: both a `'['`
and a `'%'` are present (otherwise the loop in `get_volume_level` falls
through to the next line). -/
def volFull (l : Str) : Bool :=
  volPat l && (l.findIdx? (fun c => c == '[')).isSome &&
    (l.findIdx? (fun c => c == '%')).isSome

/-- What `get_volume_level` produces from a pattern line carrying both
delimiters: the slice `line[start+1..end+1]` appended to `"VOL: "`, where
`start`/`end` are the first `'['`/`'%'`; the slice panics when the first
`'%'` precedes the first `'['` (slice start past slice end). -/
def volLineResult (l : Str) : QRes :=
  match l.findIdx? (fun c => c == '['), l.findIdx? (fun c => c == '%') with
  | some s, some e =>
    if e < s then QRes.panic
    else QRes.ok (("VOL: ").toList ++ (l.drop (s + 1)).take (e - s))
  | _, _ => QRes.ok (("Unknown").toList)

/-- The line loop of `get_volume_level` over the captured stdout lines. -/
def volScan : List Str → QRes
  | [] => QRes.ok (("Unknown").toList)
  | l :: ls =>
    if strHas offMark l then QRes.ok (("MUTED").toList)
    else if volPat l then
      match l.findIdx? (fun c => c == '['), l.findIdx? (fun c => c == '%') with
      | some s, some e =>
        if e < s then QRes.panic
        else QRes.ok (("VOL: ").toList ++ (l.drop (s + 1)).take (e - s))
      | _, _ => volScan ls
    else volScan ls

/-- `get_volume_level`: run `amixer get Master`; on spawn failure the
`io::Error` propagates (`err`); otherwise scan the lines of the captured
stdout.  The argument is the captured stdout text (`String::from_utf8_lossy`
already applied), `none` modelling a spawn failure. -/
def get_volume_level (amixerOut : Option Str) : QRes :=
  match amixerOut with
  | none => QRes.err
  | some out => volScan (rustLines out)

/-- `get_brightness`: read and trim the two backlight pseudo-files, parse
each as `i32` (defaulting to `0` for the current and `1` for the maximum on
parse failure), and return `"BL: <(current*100)/max>%"`. -/
def get_brightness (brightness max_brightness : Option Str) : QRes :=
  match read_file brightness with
  | none => QRes.err
  | some cs =>
    match read_file max_brightness with
    | none => QRes.err
    | some ms =>
      match i32mul ((parse_i32 cs).getD 0) 100 with
      | none => QRes.panic
      | some p =>
        match i32div p ((parse_i32 ms).getD 1) with
        | none => QRes.panic
        | some q => QRes.ok (("BL: ").toList ++ (toString q).toList ++ ['%'])

/-- The line marker `"MemTotal:"` (as a `starts_with` test). -/
def isTotalLine (l : Str) : Bool := ("MemTotal:").toList.isPrefixOf l

/-- The line marker `"MemAvailable:"` (as a `starts_with` test). -/
def isAvailLine (l : Str) : Bool := ("MemAvailable:").toList.isPrefixOf l

/-- `str::split_whitespace`, accumulator form (the accumulator holds the
current token reversed). -/
def splitWSAux : Str → Str → List Str
  | [], cur => if cur.isEmpty then [] else [cur.reverse]
  | c :: cs, cur =>
    if rustIsWhitespace c then
      if cur.isEmpty then splitWSAux cs []
      else cur.reverse :: splitWSAux cs []
    else splitWSAux cs (c :: cur)

/-- `str::split_whitespace`: the maximal whitespace-free tokens. -/
def split_whitespace (s : Str) : List Str := splitWSAux s []

/-- `parse_meminfo_value`:
`line.split_whitespace().nth(1).unwrap_or("0").parse::<i64>().unwrap_or(0)`. -/
def parse_meminfo_value (line : Str) : Int :=
  (parse_i64 ((split_whitespace line).getD 1 (("0").toList))).getD 0

/-- The line loop of `get_memory`, threading the mutable
`total_memory`/`available_memory` pair (last matching line wins). -/
def memFold : List Str → Int → Int → Int × Int
  | [], t, a => (t, a)
  | l :: ls, t, a =>
    if isTotalLine l then memFold ls (parse_meminfo_value l) a
    else if isAvailLine l then memFold ls t (parse_meminfo_value l)
    else memFold ls t a

/-- `get_memory`: read and trim `/proc/meminfo`, fold over its lines, and
either report missing info (`total_memory == 0`) or print
`"MEM: <(total - available) / 1024>M"`. -/
def get_memory (meminfo : Option Str) : QRes :=
  match read_file meminfo with
  | none => QRes.err
  | some content =>
    let p := memFold (rustLines content) 0 0
    if p.1 = 0 then QRes.ok (("Unable to retrieve memory info").toList)
    else
      match i64sub p.1 p.2 with
      | none => QRes.panic
      | some d => QRes.ok (("MEM: ").toList ++ (toString (d.tdiv 1024)).toList ++ ['M'])

/-- The six boolean command-line flags, in the order `main` tests them. -/
structure Flags where
  battery : Bool
  batteryState : Bool
  batteryCapacity : Bool
  volumeLevel : Bool
  backlight : Bool
  memory : Bool
deriving DecidableEq

/-- The observable environment: contents of the five pseudo-files (`none`
= unreadable) and the captured stdout of `amixer get Master` (`none` =
spawn failure). -/
structure SysFiles where
  capacity : Option Str
  status : Option Str
  brightness : Option Str
  maxBrightness : Option Str
  meminfo : Option Str
  amixer : Option Str
deriving DecidableEq

/-- Observable outcome of a run of `main` that did not panic: the payloads
of the `println!` calls, the payloads of the `eprintln!` calls (their
`: {cause}` suffixes elided), and the process exit code. -/
structure MainOut where
  stdout : List Str
  stderr : List Str
  exitCode : Nat
deriving DecidableEq

/-- Diagnostic of the battery-capacity fallback arm. -/
def capacityErrMsg : Str := ("Error reading battery capacity").toList

/-- Diagnostic of the battery-status fallback arm. -/
def statusErrMsg : Str := ("Error reading battery status").toList

/-- Diagnostic of the volume fallback arm. -/
def volumeErrMsg : Str := ("Error reading volume level").toList

/-- Diagnostic of the backlight fallback arm; the memory arm of `main`
reuses this same text (a verbatim copy in the source). -/
def backlightErrMsg : Str := ("Error reading backlight").toList

/-- `unwrap_or_else(|e| { eprintln!(msg); "Unknown" })` for the
`Result`-returning battery reads: value plus emitted diagnostics. -/
def orUnknown (msg : Str) : Option Str → Str × List Str
  | some s => (s, [])
  | none => (("Unknown").toList, [msg])

/-- The same fallback for a `QRes`-returning query; a panic is not caught
(`none`). -/
def qResolve (msg : Str) : QRes → Option (Str × List Str)
  | QRes.ok s => some (s, [])
  | QRes.err => some ((("Unknown").toList), [msg])
  | QRes.panic => none

/-- The fixed usage text of `print_help` (one `println!` payload). -/
def helpText : Str :=
  ("Usage: \n        --battery        Output battery status and capacity.\n        --battery-state  Output battery status only.\n        --battery-level  Output battery capacity only.\n        --volume-level   Output volume level.\n        --backlight      Output backlight").toList

/-- The `--battery` arm of `main`: capacity is read (and its error
reported) first, then status, then `"<status>: <capacity>%"` is printed. -/
def runBattery (fs : SysFiles) : Option MainOut :=
  some ⟨[(orUnknown statusErrMsg (get_battery_status fs.status)).1 ++ (": ").toList ++
          (orUnknown capacityErrMsg (get_battery_capacity fs.capacity)).1 ++ ['%']],
        (orUnknown capacityErrMsg (get_battery_capacity fs.capacity)).2 ++
          (orUnknown statusErrMsg (get_battery_status fs.status)).2, 0⟩

/-- The `--battery-state` arm. -/
def runBatteryState (fs : SysFiles) : Option MainOut :=
  some ⟨[(orUnknown statusErrMsg (get_battery_status fs.status)).1],
        (orUnknown statusErrMsg (get_battery_status fs.status)).2, 0⟩

/-- The `--battery-capacity` arm. -/
def runBatteryCapacity (fs : SysFiles) : Option MainOut :=
  some ⟨[(orUnknown capacityErrMsg (get_battery_capacity fs.capacity)).1 ++ ['%']],
        (orUnknown capacityErrMsg (get_battery_capacity fs.capacity)).2, 0⟩

/-- The `--volume-level` arm. -/
def runVolume (fs : SysFiles) : Option MainOut :=
  (qResolve volumeErrMsg (get_volume_level fs.amixer)).map fun r => ⟨[r.1], r.2, 0⟩

/-- The `--backlight` arm. -/
def runBacklight (fs : SysFiles) : Option MainOut :=
  (qResolve backlightErrMsg (get_brightness fs.brightness fs.maxBrightness)).map
    fun r => ⟨[r.1], r.2, 0⟩

/-- The `--memory` arm (whose diagnostic text says "backlight", as in the
source). -/
def runMemory (fs : SysFiles) : Option MainOut :=
  (qResolve backlightErrMsg (get_memory fs.meminfo)).map fun r => ⟨[r.1], r.2, 0⟩

/-- `main`: the `if / else if` dispatch over the six flags, ending in
`print_help()`; always `Ok(())` (exit code 0) unless a query panics. -/
def runMain (f : Flags) (fs : SysFiles) : Option MainOut :=
  if f.battery then runBattery fs
  else if f.batteryState then runBatteryState fs
  else if f.batteryCapacity then runBatteryCapacity fs
  else if f.volumeLevel then runVolume fs
  else if f.backlight then runBacklight fs
  else if f.memory then runMemory fs
  else some ⟨[helpText], [], 0⟩

/-- The six query modes. -/
inductive Query where
  | battery
  | batteryState
  | batteryCapacity
  | volumeLevel
  | backlight
  | memory
deriving DecidableEq

/-- The first set flag in the fixed priority order
battery, battery-state, battery-capacity, volume-level, backlight, memory
(claim C9's order, which is also the order of `main`'s `if` chain). -/
def firstFlag (f : Flags) : Option Query :=
  if f.battery then some Query.battery
  else if f.batteryState then some Query.batteryState
  else if f.batteryCapacity then some Query.batteryCapacity
  else if f.volumeLevel then some Query.volumeLevel
  else if f.backlight then some Query.backlight
  else if f.memory then some Query.memory
  else none

/-- Dispatch on an already-selected query mode (`none` = usage text). -/
def runDispatch : Option Query → SysFiles → Option MainOut
  | some Query.battery, fs => runBattery fs
  | some Query.batteryState, fs => runBatteryState fs
  | some Query.batteryCapacity, fs => runBatteryCapacity fs
  | some Query.volumeLevel, fs => runVolume fs
  | some Query.backlight, fs => runBacklight fs
  | some Query.memory, fs => runMemory fs
  | none, _ => some ⟨[helpText], [], 0⟩

/-- A stdout line whose inspection by the volume loop panics: it matches
the pattern and its first `'%'` strictly precedes its first `'['`. -/
def volPanicLine (l : Str) : Bool :=
  volPat l &&
    (match l.findIdx? (fun c => c == '['), l.findIdx? (fun c => c == '%') with
     | some s, some e => decide (e < s)
     | _, _ => false)

/-- Mixer outputs on which the volume scan cannot panic. -/
def volSafe : Option Str → Bool
  | none => true
  | some out => (rustLines out).all fun l => !volPanicLine l

/-- Backlight file contents on which `get_brightness` cannot panic: the
parsed maximum is nonzero and the `i32` multiplication and division stay
in range. -/
def blSafe : Option Str → Option Str → Bool
  | some cs, some ms =>
    decide (((parse_i32 (rustTrim ms)).getD 1 : Int) ≠ 0) &&
    decide (i32min ≤ ((parse_i32 (rustTrim cs)).getD 0 : Int) * 100) &&
    decide ((((parse_i32 (rustTrim cs)).getD 0 : Int) * 100) ≤ i32max) &&
    decide (¬((((parse_i32 (rustTrim cs)).getD 0 : Int) * 100) = i32min ∧
      ((parse_i32 (rustTrim ms)).getD 1 : Int) = -1))
  | _, _ => true

/-- Meminfo contents on which `get_memory` cannot panic: the `i64`
subtraction stays in range. -/
def memSafe : Option Str → Bool
  | none => true
  | some mc =>
    decide (i64min ≤ (memFold (rustLines (rustTrim mc)) 0 0).1 -
      (memFold (rustLines (rustTrim mc)) 0 0).2) &&
    decide ((memFold (rustLines (rustTrim mc)) 0 0).1 -
      (memFold (rustLines (rustTrim mc)) 0 0).2 ≤ i64max)

/-- The volume substring as claim C1 literally reads: starting _at_ the
first `'['` (so including the bracket) through the first `'%'` inclusive.
Modelled from the claim's wording for comparison with the code's slice. -/
def claimVolSlice (l : Str) (s e : Nat) : Str := (l.drop s).take (e + 1 - s)

/-- A battery field as printed: the trimmed file content, or `"Unknown"`
after a read failure. -/
def battField : Option Str → Str
  | none => ("Unknown").toList
  | some s => rustTrim s

/-- The `--battery` result line `"<status>: <capacity>%"`. -/
def batteryLine (st cap : Option Str) : Str :=
  battField st ++ (": ").toList ++ battField cap ++ ['%']

/-- The stderr diagnostics of the `--battery` arm, in emission order
(capacity is read first). -/
def batteryErrs (cap st : Option Str) : List Str :=
  (match cap with
   | none => [capacityErrMsg]
   | some _ => []) ++
  (match st with
   | none => [statusErrMsg]
   | some _ => [])

/-- Concrete flag sets and environments used by witnesses and
counterexamples. -/
def flagsNone : Flags := ⟨false, false, false, false, false, false⟩

/-- All six flags set. -/
def flagsAll : Flags := ⟨true, true, true, true, true, true⟩

/-- Only `--battery`. -/
def flagsBatteryOnly : Flags := ⟨true, false, false, false, false, false⟩

/-- Only `--volume-level`. -/
def flagsVolumeOnly : Flags := ⟨false, false, false, true, false, false⟩

/-- Everything unreadable / failing. -/
def fsEmpty : SysFiles := ⟨none, none, none, none, none, none⟩

/-- Readable capacity `"47\n"`, unreadable status (claim C7's example). -/
def fsC7 : SysFiles := ⟨some (("47\n").toList), none, none, none, none, none⟩

/-- A mixer output whose single line makes the slice panic (first `'%'`
before first `'['`). -/
def fsMixerPanic : SysFiles := ⟨none, none, none, none, none, some (("Mono: %[").toList)⟩

example : rustLines (("a\r\nb\nc").toList) = [("a").toList, ("b").toList, ("c").toList] := by decide
example : rustTrim (("  47\n").toList) = ("47").toList := by decide
example : parse_i32 (("-2147483648").toList) = some (-2147483648) := by decide
example : parse_i32 (("2147483648").toList) = none := by decide
example : get_volume_level (some (("Mono: Playback 50 [65%]").toList)) =
    QRes.ok (("VOL: 65%").toList) := by decide
example : get_volume_level (some (("Mono: %[").toList)) = QRes.panic := by decide
example : get_brightness (some (("50\n").toList)) (some (("200\n").toList)) =
    QRes.ok (("BL: 25%").toList) := by decide
example : get_brightness (some (("100").toList)) (some (("0").toList)) = QRes.panic := by decide
example : get_memory (some (("MemTotal: 16000000 kB\nMemAvailable: 8000000 kB").toList)) =
    QRes.ok (("MEM: 7812M").toList) := by decide
example : get_memory (some (("MemFree: 100 kB").toList)) =
    QRes.ok (("Unable to retrieve memory info").toList) := by decide

theorem volScan_pass (l : Str) (rest : List Str)
    (hoff : strHas offMark l = false) (hfull : volFull l = false) :
    volScan (l :: rest) = volScan rest := by
  cases hp : volPat l with
  | false => simp [volScan, hoff, hp]
  | true =>
    cases h1 : l.findIdx? (fun c => c == '[') with
    | none => simp [volScan, hoff, hp, h1]
    | some s =>
      cases h2 : l.findIdx? (fun c => c == '%') with
      | none => simp [volScan, hoff, hp, h1, h2]
      | some e =>
        exfalso
        have hv : volFull l = true := by simp [volFull, hp, h1, h2]
        rw [hv] at hfull
        simp at hfull

theorem volScan_skip (pre rest : List Str)
    (h : ∀ p ∈ pre, strHas offMark p = false ∧ volFull p = false) :
    volScan (pre ++ rest) = volScan rest := by
  induction pre with
  | nil => rfl
  | cons p pre ih =>
    rw [List.cons_append,
      volScan_pass p _ (h p (by simp)).1 (h p (by simp)).2]
    exact ih fun x hx => h x (by simp [hx])

theorem volScan_full (l : Str) (ls : List Str)
    (hoff : strHas offMark l = false) (hfull : volFull l = true) :
    volScan (l :: ls) = volLineResult l := by
  have hv := hfull
  simp only [volFull, Bool.and_eq_true, Option.isSome_iff_exists] at hv
  obtain ⟨⟨hp, s, h1⟩, e, h2⟩ := hv
  simp [volScan, volLineResult, hoff, hp, h1, h2]

theorem volScan_reach_muted (pre : List Str) (l : Str) (post : List Str)
    (hpre : ∀ p ∈ pre, volFull p = false) (hoff : strHas offMark l = true) :
    volScan (pre ++ l :: post) = QRes.ok (("MUTED").toList) := by
  induction pre with
  | nil => simp [volScan, hoff]
  | cons p pre ih =>
    cases hpo : strHas offMark p with
    | true => simp [volScan, hpo]
    | false =>
      rw [List.cons_append, volScan_pass p _ hpo (hpre p (by simp))]
      exact ih fun x hx => hpre x (by simp [hx])

theorem volScan_no_panic (ls : List Str) (h : ∀ l ∈ ls, volPanicLine l = false) :
    volScan ls ≠ QRes.panic := by
  induction ls with
  | nil => simp [volScan]
  | cons l ls ih =>
    cases hoff : strHas offMark l with
    | true => simp [volScan, hoff]
    | false =>
      cases hp : volPat l with
      | false =>
        rw [volScan_pass l ls hoff (by simp [volFull, hp])]
        exact ih fun x hx => h x (by simp [hx])
      | true =>
        cases h1 : l.findIdx? (fun c => c == '[') with
        | none =>
          rw [volScan_pass l ls hoff (by simp [volFull, hp, h1])]
          exact ih fun x hx => h x (by simp [hx])
        | some s =>
          cases h2 : l.findIdx? (fun c => c == '%') with
          | none =>
            rw [volScan_pass l ls hoff (by simp [volFull, hp, h1, h2])]
            exact ih fun x hx => h x (by simp [hx])
          | some e =>
            have hnp := h l (by simp)
            simp only [volPanicLine, hp, h1, h2, Bool.true_and,
              decide_eq_false_iff_not] at hnp
            simp [volScan, hoff, hp, h1, h2, hnp]

theorem memTotalMark_eq :
    ("MemTotal:").toList = 'M' :: 'e' :: 'm' :: 'T' :: 'o' :: 't' :: 'a' :: 'l' :: ':' :: [] :=
  rfl

theorem memAvailMark_eq :
    ("MemAvailable:").toList =
      'M' :: 'e' :: 'm' :: 'A' :: 'v' :: 'a' :: 'i' :: 'l' :: 'a' :: 'b' :: 'l' :: 'e' :: ':' :: [] :=
  rfl

theorem totalAvailDisjoint (l : Str) (h1 : isTotalLine l = true) : isAvailLine l = false := by
  match l with
  | [] => simp [isTotalLine, memTotalMark_eq, List.isPrefixOf] at h1
  | [c0] => simp [isTotalLine, memTotalMark_eq, List.isPrefixOf] at h1
  | [c0, c1] => simp [isTotalLine, memTotalMark_eq, List.isPrefixOf] at h1
  | [c0, c1, c2] => simp [isTotalLine, memTotalMark_eq, List.isPrefixOf] at h1
  | c0 :: c1 :: c2 :: c3 :: r =>
    by_contra h2
    rw [Bool.not_eq_false] at h2
    simp only [isTotalLine, memTotalMark_eq, List.isPrefixOf, Bool.and_eq_true,
      beq_iff_eq] at h1
    simp only [isAvailLine, memAvailMark_eq, List.isPrefixOf, Bool.and_eq_true,
      beq_iff_eq] at h2
    exact absurd (h1.2.2.2.1.trans h2.2.2.2.1.symm) (by decide)

theorem memFold_fst (t : Int) (ls : List Str) :
    ∀ t0 a0 : Int,
      (∀ l ∈ ls, isTotalLine l = true → parse_meminfo_value l = t) →
      (memFold ls t0 a0).1 = if ls.any (fun l => isTotalLine l) then t else t0 := by
  induction ls with
  | nil => intro t0 a0 h; simp [memFold]
  | cons l ls ih =>
    intro t0 a0 h
    have hrest : ∀ x ∈ ls, isTotalLine x = true → parse_meminfo_value x = t :=
      fun x hx hxt => h x (List.mem_cons_of_mem _ hx) hxt
    cases ht : isTotalLine l with
    | true =>
      simp only [memFold, ht, if_true, List.any_cons, Bool.true_or,
        h l (List.mem_cons_self _ _) ht]
      rw [ih t a0 hrest]
      simp
    | false =>
      cases ha : isAvailLine l with
      | true =>
        simp only [memFold, ht, ha, List.any_cons, Bool.false_eq_true, if_false, if_true,
          Bool.false_or]
        exact ih t0 _ hrest
      | false =>
        simp only [memFold, ht, ha, List.any_cons, Bool.false_eq_true, if_false,
          Bool.false_or]
        exact ih t0 a0 hrest

theorem memFold_snd (a : Int) (ls : List Str) :
    ∀ t0 a0 : Int,
      (∀ l ∈ ls, isAvailLine l = true → parse_meminfo_value l = a) →
      (memFold ls t0 a0).2 = if ls.any (fun l => isAvailLine l) then a else a0 := by
  induction ls with
  | nil => intro t0 a0 h; simp [memFold]
  | cons l ls ih =>
    intro t0 a0 h
    have hrest : ∀ x ∈ ls, isAvailLine x = true → parse_meminfo_value x = a :=
      fun x hx hxa => h x (List.mem_cons_of_mem _ hx) hxa
    cases ht : isTotalLine l with
    | true =>
      have hna : isAvailLine l = false := totalAvailDisjoint l ht
      simp only [memFold, ht, if_true, List.any_cons, hna, Bool.false_or]
      exact ih _ a0 hrest
    | false =>
      cases ha : isAvailLine l with
      | true =>
        simp only [memFold, ht, ha, List.any_cons, Bool.false_eq_true, if_false, if_true,
          Bool.true_or, h l (List.mem_cons_self _ _) ha]
        rw [ih t0 a hrest]
        simp
      | false =>
        simp only [memFold, ht, ha, List.any_cons, Bool.false_eq_true, if_false,
          Bool.false_or]
        exact ih t0 a0 hrest

/-- C1 (amended): with no `[off]` on any scanned line, when the first
`"Mono:"`/`"Front Left:"` line carrying both a `'['` and a `'%'` has its
first `'['` before its first `'%'`, the volume query returns `"VOL: "`
concatenated with the characters strictly after the first `'['` through
the first `'%'` inclusive — the `'['` itself is excluded (the code slices
`line[start+1..end+1]`), which is the one change the counterexample
forces; the `'%'` is included and the closing `']'` is not, as claimed. -/
theorem spec_c1_vol_extraction (out : Str) (pre : List Str) (l : Str) (post : List Str)
    (s e : Nat)
    (hsplit : rustLines out = pre ++ l :: post)
    (hpre : ∀ p ∈ pre, strHas offMark p = false ∧ volFull p = false)
    (hoff : strHas offMark l = false)
    (hpat : volPat l = true)
    (hs : l.findIdx? (fun c => c == '[') = some s)
    (he : l.findIdx? (fun c => c == '%') = some e)
    (hlt : s < e) :
    get_volume_level (some out) =
      QRes.ok (("VOL: ").toList ++ (l.drop (s + 1)).take (e - s)) := by
  change volScan (rustLines out) = _
  rw [hsplit, volScan_skip pre _ hpre,
    volScan_full l post hoff (by simp [volFull, hpat, hs, he])]
  simp only [volLineResult, hs, he]
  rw [if_neg (by omega)]

/-- C1 witness: on `amixer` output `"Mono: Playback 50 [65%]"` the query
returns `"VOL: 65%"`. -/
theorem spec_c1_witness :
    get_volume_level (some (("Mono: Playback 50 [65%]").toList)) =
      QRes.ok (("VOL: 65%").toList) := by
  have h := spec_c1_vol_extraction (("Mono: Playback 50 [65%]").toList) []
    (("Mono: Playback 50 [65%]").toList) [] 18 21 (by decide) (by simp)
    (by decide) (by decide) (by decide) (by decide) (by decide)
  exact h.trans (by decide)

/-- C1 counterexample: on the line `"Mono: Playback 50 [65%]"` the first
`'['` is at index 18 and the first `'%'` at index 21; the substring
starting _at_ the first `'['` through the first `'%'` inclusive is
`"[65%"`, so the claim predicts `"VOL: [65%"`, but the code returns
`"VOL: 65%"` — the `'['` is not part of the output. -/
theorem spec_c1_cx :
    (("Mono: Playback 50 [65%]").toList).findIdx? (fun c => c == '[') = some 18 ∧
    (("Mono: Playback 50 [65%]").toList).findIdx? (fun c => c == '%') = some 21 ∧
    ("VOL: ").toList ++ claimVolSlice (("Mono: Playback 50 [65%]").toList) 18 21 =
      ("VOL: [65%").toList ∧
    get_volume_level (some (("Mono: Playback 50 [65%]").toList)) =
      QRes.ok (("VOL: 65%").toList) ∧
    QRes.ok (("VOL: 65%").toList) ≠ QRes.ok (("VOL: [65%").toList) := by
  decide

/-- C2 (amended): a line containing `"[off]"` yields `"MUTED"` provided no
strictly earlier stdout line is a `"Mono:"`/`"Front Left:"` line carrying
both a `'['` and a `'%'` — such an earlier line triggers extraction first
and preempts the mute check (the change the counterexample forces).  In
particular mute always wins on the line itself, since each line's `[off]`
test runs before its extraction test. -/
theorem spec_c2_mute_priority (out : Str) (pre : List Str) (l : Str) (post : List Str)
    (hsplit : rustLines out = pre ++ l :: post)
    (hpre : ∀ p ∈ pre, volFull p = false)
    (hoff : strHas offMark l = true) :
    get_volume_level (some out) = QRes.ok (("MUTED").toList) := by
  change volScan (rustLines out) = _
  rw [hsplit]
  exact volScan_reach_muted pre l post hpre hoff

/-- C2 witness: the spec's own example line
`"Front Left: Playback 50 [65%] [off]"` yields `"MUTED"` even though it
also carries a percentage. -/
theorem spec_c2_witness :
    get_volume_level (some (("Front Left: Playback 50 [65%] [off]").toList)) =
      QRes.ok (("MUTED").toList) :=
  spec_c2_mute_priority (("Front Left: Playback 50 [65%] [off]").toList) []
    (("Front Left: Playback 50 [65%] [off]").toList) [] (by decide) (by simp) (by decide)

/-- C2 counterexample: the output
`"Mono: Playback 50 [65%]\nFront Left: Playback 50 [70%] [off]"` contains
`"[off]"` on a line, yet the query returns `"VOL: 65%"`, not `"MUTED"`:
the extraction on the earlier line returns before the `[off]` line is ever
scanned, so mute does not take priority regardless of line order. -/
theorem spec_c2_cx :
    ((rustLines (("Mono: Playback 50 [65%]\nFront Left: Playback 50 [70%] [off]").toList)).any
      fun l => strHas offMark l) = true ∧
    get_volume_level
        (some (("Mono: Playback 50 [65%]\nFront Left: Playback 50 [70%] [off]").toList)) =
      QRes.ok (("VOL: 65%").toList) ∧
    QRes.ok (("VOL: 65%").toList) ≠ QRes.ok (("MUTED").toList) := by
  decide

/-- C8 (amended): with no `[off]` reached, the result is determined by the
first line containing `"Mono:"` or `"Front Left:"` _together with both a
`'['` and a `'%'`_ — pattern lines lacking either delimiter are skipped
and later lines are consulted (the change the counterexample forces); if
no such line exists the result is `"Unknown"`. -/
theorem spec_c8_first_full_line :
    (∀ (out : Str) (pre : List Str) (l : Str) (post : List Str),
      rustLines out = pre ++ l :: post →
      (∀ p ∈ pre, strHas offMark p = false ∧ volFull p = false) →
      strHas offMark l = false → volFull l = true →
      get_volume_level (some out) = volLineResult l) ∧
    (∀ out : Str,
      (∀ p ∈ rustLines out, strHas offMark p = false ∧ volFull p = false) →
      get_volume_level (some out) = QRes.ok (("Unknown").toList)) := by
  constructor
  · intro out pre l post hsplit hpre hoff hfull
    change volScan (rustLines out) = _
    rw [hsplit, volScan_skip pre _ hpre]
    exact volScan_full l post hoff hfull
  · intro out h
    change volScan (rustLines out) = _
    have hskip := volScan_skip (rustLines out) [] h
    rw [List.append_nil] at hskip
    rw [hskip]
    rfl

/-- C8 witness: on `"Mono: x\nMono: [65%]"` the first pattern line carries
no delimiters, so the second decides and the result is its extraction
`"VOL: 65%"`; on `"Mono: x"` alone no full line exists and the result is
`"Unknown"`. -/
theorem spec_c8_witness :
    get_volume_level (some (("Mono: x\nMono: [65%]").toList)) =
      QRes.ok (("VOL: 65%").toList) ∧
    get_volume_level (some (("Mono: x").toList)) = QRes.ok (("Unknown").toList) :=
  ⟨(spec_c8_first_full_line.1 (("Mono: x\nMono: [65%]").toList) [("Mono: x").toList]
      (("Mono: [65%]").toList) [] (by decide) (by decide) (by decide) (by decide)).trans
    (by decide),
   spec_c8_first_full_line.2 (("Mono: x").toList) (by decide)⟩

/-- C8 counterexample: `"Mono: x"` is the first line containing `"Mono:"`
in both outputs below, yet the results differ — on the two-line output the
scan consults the later line and returns its percentage, so the first
pattern-matching line does not determine the result and later lines are
consulted after it. -/
theorem spec_c8_cx :
    strHas monoMark (("Mono: x").toList) = true ∧
    get_volume_level (some (("Mono: x").toList)) = QRes.ok (("Unknown").toList) ∧
    get_volume_level (some (("Mono: x\nMono: [65%]").toList)) =
      QRes.ok (("VOL: 65%").toList) := by
  decide

theorem runBattery_ok (fs : SysFiles) :
    ∃ out, runBattery fs = some out ∧ out.exitCode = 0 ∧ out.stdout.length = 1 :=
  ⟨_, rfl, rfl, rfl⟩

theorem runBatteryState_ok (fs : SysFiles) :
    ∃ out, runBatteryState fs = some out ∧ out.exitCode = 0 ∧ out.stdout.length = 1 :=
  ⟨_, rfl, rfl, rfl⟩

theorem runBatteryCapacity_ok (fs : SysFiles) :
    ∃ out, runBatteryCapacity fs = some out ∧ out.exitCode = 0 ∧ out.stdout.length = 1 :=
  ⟨_, rfl, rfl, rfl⟩

theorem runVolume_ok (fs : SysFiles) (hv : volSafe fs.amixer = true) :
    ∃ out, runVolume fs = some out ∧ out.exitCode = 0 ∧ out.stdout.length = 1 := by
  cases hax : fs.amixer with
  | none =>
    refine ⟨⟨[("Unknown").toList], [volumeErrMsg], 0⟩, ?_, rfl, rfl⟩
    simp [runVolume, hax, get_volume_level, qResolve]
  | some out =>
    have hv' : ∀ l ∈ rustLines out, volPanicLine l = false := by
      rw [hax] at hv
      simp only [volSafe, List.all_eq_true, Bool.not_eq_true'] at hv
      exact hv
    have hnp := volScan_no_panic (rustLines out) hv'
    cases hq : volScan (rustLines out) with
    | ok s =>
      refine ⟨⟨[s], [], 0⟩, ?_, rfl, rfl⟩
      simp [runVolume, hax, get_volume_level, hq, qResolve]
    | err =>
      refine ⟨⟨[("Unknown").toList], [volumeErrMsg], 0⟩, ?_, rfl, rfl⟩
      simp [runVolume, hax, get_volume_level, hq, qResolve]
    | panic => exact absurd hq hnp

theorem runBacklight_ok (fs : SysFiles) (hb : blSafe fs.brightness fs.maxBrightness = true) :
    ∃ out, runBacklight fs = some out ∧ out.exitCode = 0 ∧ out.stdout.length = 1 := by
  cases hbr : fs.brightness with
  | none =>
    refine ⟨⟨[("Unknown").toList], [backlightErrMsg], 0⟩, ?_, rfl, rfl⟩
    simp [runBacklight, hbr, get_brightness, read_file, qResolve]
  | some cs =>
    cases hmx : fs.maxBrightness with
    | none =>
      refine ⟨⟨[("Unknown").toList], [backlightErrMsg], 0⟩, ?_, rfl, rfl⟩
      simp [runBacklight, hbr, hmx, get_brightness, read_file, qResolve]
    | some ms =>
      rw [hbr, hmx] at hb
      simp only [blSafe, Bool.and_eq_true, decide_eq_true_eq] at hb
      obtain ⟨⟨⟨hb1, hb2⟩, hb3⟩, hb4⟩ := hb
      have h1 : i32mul ((parse_i32 (rustTrim cs)).getD 0) 100 =
          some ((parse_i32 (rustTrim cs)).getD 0 * 100) := by
        simp only [i32mul]
        rw [if_pos ⟨hb2, hb3⟩]
      have h2 : i32div ((parse_i32 (rustTrim cs)).getD 0 * 100)
          ((parse_i32 (rustTrim ms)).getD 1) =
          some (((parse_i32 (rustTrim cs)).getD 0 * 100).tdiv
            ((parse_i32 (rustTrim ms)).getD 1)) := by
        simp only [i32div]
        rw [if_neg hb1, if_neg hb4]
      refine ⟨⟨[("BL: ").toList ++
          (toString (((parse_i32 (rustTrim cs)).getD 0 * 100).tdiv
            ((parse_i32 (rustTrim ms)).getD 1))).toList ++ ['%']], [], 0⟩, ?_, rfl, rfl⟩
      simp [runBacklight, hbr, hmx, get_brightness, read_file, qResolve, h1, h2]

theorem runMemory_ok (fs : SysFiles) (hm : memSafe fs.meminfo = true) :
    ∃ out, runMemory fs = some out ∧ out.exitCode = 0 ∧ out.stdout.length = 1 := by
  cases hmi : fs.meminfo with
  | none =>
    refine ⟨⟨[("Unknown").toList], [backlightErrMsg], 0⟩, ?_, rfl, rfl⟩
    simp [runMemory, hmi, get_memory, read_file, qResolve]
  | some mc =>
    rw [hmi] at hm
    simp only [memSafe, Bool.and_eq_true, decide_eq_true_eq] at hm
    by_cases hz : (memFold (rustLines (rustTrim mc)) 0 0).1 = 0
    · refine ⟨⟨[("Unable to retrieve memory info").toList], [], 0⟩, ?_, rfl, rfl⟩
      simp [runMemory, hmi, get_memory, read_file, qResolve, hz]
    · have hsub : i64sub (memFold (rustLines (rustTrim mc)) 0 0).1
          (memFold (rustLines (rustTrim mc)) 0 0).2 =
          some ((memFold (rustLines (rustTrim mc)) 0 0).1 -
            (memFold (rustLines (rustTrim mc)) 0 0).2) := by
        simp only [i64sub]
        rw [if_pos ⟨hm.1, hm.2⟩]
      refine ⟨⟨[("MEM: ").toList ++
          (toString (((memFold (rustLines (rustTrim mc)) 0 0).1 -
            (memFold (rustLines (rustTrim mc)) 0 0).2).tdiv 1024)).toList ++ ['M']],
          [], 0⟩, ?_, rfl, rfl⟩
      simp [runMemory, hmi, get_memory, read_file, qResolve, hz, hsub]

/-- C3 (amended): every run of `main` completes normally — printing exactly
one stdout line and exiting with code 0 — provided (a) no amixer stdout
line matches the volume pattern with its first `'%'` before its first
`'['` (otherwise the byte slice panics), (b) the parsed backlight maximum
is nonzero and the backlight `i32` arithmetic stays in range (otherwise
division by zero / overflow panics, see C10), and (c) the meminfo `i64`
subtraction stays in range.  The counterexample shows the unconditional
claim is false: a panicking run never prints a result line. -/
theorem spec_c3_total_when_safe (f : Flags) (fs : SysFiles)
    (hv : volSafe fs.amixer = true)
    (hb : blSafe fs.brightness fs.maxBrightness = true)
    (hm : memSafe fs.meminfo = true) :
    ∃ out, runMain f fs = some out ∧ out.exitCode = 0 ∧ out.stdout.length = 1 := by
  cases hfb : f.battery with
  | true =>
    obtain ⟨o, ho, h0, h1⟩ := runBattery_ok fs
    exact ⟨o, by simp [runMain, hfb, ho], h0, h1⟩
  | false =>
  cases hfs : f.batteryState with
  | true =>
    obtain ⟨o, ho, h0, h1⟩ := runBatteryState_ok fs
    exact ⟨o, by simp [runMain, hfb, hfs, ho], h0, h1⟩
  | false =>
  cases hfc : f.batteryCapacity with
  | true =>
    obtain ⟨o, ho, h0, h1⟩ := runBatteryCapacity_ok fs
    exact ⟨o, by simp [runMain, hfb, hfs, hfc, ho], h0, h1⟩
  | false =>
  cases hfv : f.volumeLevel with
  | true =>
    obtain ⟨o, ho, h0, h1⟩ := runVolume_ok fs hv
    exact ⟨o, by simp [runMain, hfb, hfs, hfc, hfv, ho], h0, h1⟩
  | false =>
  cases hfl : f.backlight with
  | true =>
    obtain ⟨o, ho, h0, h1⟩ := runBacklight_ok fs hb
    exact ⟨o, by simp [runMain, hfb, hfs, hfc, hfv, hfl, ho], h0, h1⟩
  | false =>
  cases hfm : f.memory with
  | true =>
    obtain ⟨o, ho, h0, h1⟩ := runMemory_ok fs hm
    exact ⟨o, by simp [runMain, hfb, hfs, hfc, hfv, hfl, hfm, ho], h0, h1⟩
  | false =>
    exact ⟨⟨[helpText], [], 0⟩, by simp [runMain, hfb, hfs, hfc, hfv, hfl, hfm], rfl, rfl⟩

/-- C3 witness: with every file unreadable and the mixer failing to spawn,
a `--volume-level` run still completes, prints one line and exits 0. -/
theorem spec_c3_witness :
    ∃ out, runMain flagsVolumeOnly fsEmpty = some out ∧
      out.exitCode = 0 ∧ out.stdout.length = 1 :=
  spec_c3_total_when_safe flagsVolumeOnly fsEmpty (by decide) (by decide) (by decide)

/-- C3 counterexample: on the mixer output `"Mono: %["` (first `'%'`
before first `'['` on a pattern line) the slice `line[start+1..end+1]` has
its start past its end, so the volume query panics and the `--volume-level`
process aborts instead of printing a result line and exiting 0. -/
theorem spec_c3_cx :
    get_volume_level (some (("Mono: %[").toList)) = QRes.panic ∧
    runMain flagsVolumeOnly fsMixerPanic = none := by
  decide

/-- C4 (amended): for readable backlight files, with `current` defaulting
to 0 and `max` to 1 on `i32`-parse failure, whenever the parsed values
satisfy `0 ≤ current`, `0 < max` and `current * 100` fits in `i32`, the
query returns `"BL: <floor(current*100/max)>%"`; the percentage equals 100
when `current = max`, and when `current > max` it is at least 100 and
unclamped but need not exceed 100 (the counterexample: `current = 201`,
`max = 200` gives exactly 100).  With `max = 0` the query panics instead
(claim C10), which is why the claim's unrestricted form also fails at
`current = max = 0`. -/
theorem spec_c4_backlight (cs ms : Str) (cb mb : Int)
    (hc : (parse_i32 (rustTrim cs)).getD 0 = cb)
    (hm : (parse_i32 (rustTrim ms)).getD 1 = mb)
    (hcb : 0 ≤ cb) (hmb : 0 < mb) (hbound : cb * 100 ≤ i32max) :
    get_brightness (some cs) (some ms) =
      QRes.ok (("BL: ").toList ++ (toString (Int.fdiv (cb * 100) mb)).toList ++ ['%']) ∧
    (cb = mb → Int.fdiv (cb * 100) mb = 100) ∧
    (mb < cb → 100 ≤ Int.fdiv (cb * 100) mb) := by
  have h0 : (0 : Int) ≤ cb * 100 := by positivity
  have hlow : i32min ≤ cb * 100 := le_trans (by norm_num [i32min]) h0
  have htf : Int.tdiv (cb * 100) mb = Int.fdiv (cb * 100) mb := by
    rw [Int.tdiv_eq_ediv h0 (le_of_lt hmb), Int.fdiv_eq_ediv _ (le_of_lt hmb)]
  refine ⟨?_, ?_, ?_⟩
  · have h1 : i32mul cb 100 = some (cb * 100) := by
      simp only [i32mul]
      rw [if_pos ⟨hlow, hbound⟩]
    have h2 : i32div (cb * 100) mb = some (Int.tdiv (cb * 100) mb) := by
      simp only [i32div]
      rw [if_neg (by omega), if_neg ?_]
      rintro ⟨ha, -⟩
      simp only [i32min] at ha
      omega
    simp only [get_brightness, read_file, Option.map_some', hc, hm, h1, h2, htf]
  · intro he
    rw [he, Int.fdiv_eq_ediv _ (le_of_lt hmb)]
    exact Int.mul_ediv_cancel_left 100 (by omega)
  · intro hlt
    rw [Int.fdiv_eq_ediv _ (le_of_lt hmb)]
    calc (100 : Int) = mb * 100 / mb := by
          rw [mul_comm]
          exact (Int.mul_ediv_cancel 100 (by omega)).symm
      _ ≤ cb * 100 / mb :=
          Int.ediv_le_ediv hmb (mul_le_mul_of_nonneg_right (le_of_lt hlt) (by norm_num))

/-- C4 witness: files `"128\n"` and `"128"` parse to `current = max = 128`
and the query prints `"BL: 100%"`, with `floor(128*100/128) = 100`. -/
theorem spec_c4_witness :
    get_brightness (some (("128\n").toList)) (some (("128").toList)) =
      QRes.ok (("BL: 100%").toList) ∧
    Int.fdiv (128 * 100) 128 = 100 := by
  have h := spec_c4_backlight (("128\n").toList) (("128").toList) 128 128
    (by decide) (by decide) (by decide) (by decide) (by decide)
  exact ⟨h.1.trans (by decide), h.2.1 rfl⟩

/-- C4 counterexample: with `current = 201 > max = 200` (both files parse
successfully) the query returns exactly `"BL: 100%"` — the percentage does
not exceed 100, contradicting the claim that it does whenever
`current > max`. -/
theorem spec_c4_cx :
    parse_i32 (("201").toList) = some 201 ∧
    parse_i32 (("200").toList) = some 200 ∧
    (201 : Int) > 200 ∧
    get_brightness (some (("201").toList)) (some (("200").toList)) =
      QRes.ok (("BL: 100%").toList) ∧
    ¬((100 : Int) > 100) := by
  decide

/-- C5 (amended): for a readable meminfo whose `MemTotal:` lines all parse
(second whitespace token, default 0 on parse failure) to the same nonzero
`t` — at least one such line existing — and whose `MemAvailable:` lines
all parse to `a` (with `a = 0` allowed when absent), and whose difference
`t - a` fits in `i64` (the proviso the counterexample forces; real meminfo
values are nonnegative, so it always holds in practice), the memory query
returns `"MEM: <(t - a) / 1024>M"` with truncating integer division.  The
hypotheses mention only membership, not position, so the result is
independent of line order. -/
theorem spec_c5_memory (content : Str) (t a : Int)
    (htp : ∀ l ∈ rustLines (rustTrim content), isTotalLine l = true →
      parse_meminfo_value l = t)
    (hte : ∃ l ∈ rustLines (rustTrim content), isTotalLine l = true)
    (hap : ∀ l ∈ rustLines (rustTrim content), isAvailLine l = true →
      parse_meminfo_value l = a)
    (hae : (∃ l ∈ rustLines (rustTrim content), isAvailLine l = true) ∨ a = 0)
    (hnz : t ≠ 0)
    (hlo : i64min ≤ t - a) (hhi : t - a ≤ i64max) :
    get_memory (some content) =
      QRes.ok (("MEM: ").toList ++ (toString (Int.tdiv (t - a) 1024)).toList ++ ['M']) := by
  have hfst : (memFold (rustLines (rustTrim content)) 0 0).1 = t := by
    rw [memFold_fst t _ 0 0 htp]
    obtain ⟨l, hl, hlt⟩ := hte
    exact if_pos (List.any_eq_true.mpr ⟨l, hl, hlt⟩)
  have hsnd : (memFold (rustLines (rustTrim content)) 0 0).2 = a := by
    rw [memFold_snd a _ 0 0 hap]
    rcases hae with he | hz
    · obtain ⟨l, hl, hla⟩ := he
      exact if_pos (List.any_eq_true.mpr ⟨l, hl, hla⟩)
    · subst hz
      simp
  have hsub : i64sub t a = some (t - a) := by
    simp only [i64sub]
    rw [if_pos ⟨hlo, hhi⟩]
  simp only [get_memory, read_file, Option.map_some', hfst, hsnd, if_neg hnz, hsub]

/-- C5 witness: the claim's own instance — `MemTotal: 16000000 kB` and
`MemAvailable: 8000000 kB` yield exactly `"MEM: 7812M"`. -/
theorem spec_c5_witness :
    get_memory (some (("MemTotal: 16000000 kB\nMemAvailable: 8000000 kB").toList)) =
      QRes.ok (("MEM: 7812M").toList) := by
  have h := spec_c5_memory (("MemTotal: 16000000 kB\nMemAvailable: 8000000 kB").toList)
    16000000 8000000 (by decide) (by decide) (by decide) (Or.inl (by decide))
    (by decide) (by decide) (by decide)
  exact h.trans (by decide)

/-- C5 counterexample: `MemTotal` parses to the nonzero 1 while
`MemAvailable` parses to `i64::MIN`, so `total - available` overflows
`i64`: under the overflow checks of debug builds the subtraction panics
(modelled here); a release build would wrap instead — in neither case is
the claimed `(total - available)/1024` printed. -/
theorem spec_c5_cx :
    parse_i64 (("-9223372036854775808").toList) = some (-9223372036854775808) ∧
    get_memory (some (("MemTotal: 1 kB\nMemAvailable: -9223372036854775808 kB").toList)) =
      QRes.panic := by
  decide

/-- C6: when no line of the (trimmed) meminfo starts with `MemTotal:`, or
every such line's value token parses to 0 (including every parse failure,
which `unwrap_or(0)` maps to 0), `total_memory` remains 0 and the query
returns the fixed string `"Unable to retrieve memory info"` as a normal
success. -/
theorem spec_c6_memory_missing (content : Str)
    (h : (∀ l ∈ rustLines (rustTrim content), isTotalLine l = false) ∨
         (∀ l ∈ rustLines (rustTrim content), isTotalLine l = true →
           parse_meminfo_value l = 0)) :
    get_memory (some content) = QRes.ok (("Unable to retrieve memory info").toList) := by
  have hfst : (memFold (rustLines (rustTrim content)) 0 0).1 = 0 := by
    rcases h with h1 | h2
    · rw [memFold_fst 0 _ 0 0 (fun l hl hlt => absurd hlt (by simp [h1 l hl]))]
      simp
    · rw [memFold_fst 0 _ 0 0 h2]
      simp
  simp only [get_memory, read_file, Option.map_some', hfst, if_pos rfl]
  simp

/-- C6 witness: a meminfo with no `MemTotal:` line. -/
theorem spec_c6_witness :
    get_memory (some (("MemFree: 100 kB").toList)) =
      QRes.ok (("Unable to retrieve memory info").toList) :=
  spec_c6_memory_missing (("MemFree: 100 kB").toList) (Or.inl (by decide))

/-- C7: when reading the capacity or the status file fails, the failing
field is replaced by the literal `"Unknown"`, at least one diagnostic goes
to standard error (capacity's first, as it is read first), and the program
still prints `"<status>: <capacity>%"` and exits with code 0. -/
theorem spec_c7_battery_degraded (f : Flags) (fs : SysFiles)
    (hb : f.battery = true)
    (hfail : fs.capacity = none ∨ fs.status = none) :
    runMain f fs =
      some ⟨[batteryLine fs.status fs.capacity], batteryErrs fs.capacity fs.status, 0⟩ ∧
    batteryErrs fs.capacity fs.status ≠ [] := by
  constructor
  · simp only [runMain, hb, if_true]
    cases hc : fs.capacity <;> cases hs : fs.status <;>
      simp [runBattery, orUnknown, get_battery_capacity, get_battery_status, read_file,
        battField, batteryLine, batteryErrs, hc, hs]
  · rcases hfail with h | h
    · cases hs2 : fs.status <;> simp [batteryErrs, h, hs2]
    · cases hc2 : fs.capacity <;> simp [batteryErrs, h, hc2]

/-- C7 witness: an unreadable status file with readable capacity `"47\n"`
yields the line `"Unknown: 47%"`, one stderr diagnostic, exit code 0. -/
theorem spec_c7_witness :
    runMain flagsBatteryOnly fsC7 =
      some ⟨[("Unknown: 47%").toList], [("Error reading battery status").toList], 0⟩ := by
  have h := spec_c7_battery_degraded flagsBatteryOnly fsC7 rfl (Or.inr rfl)
  exact h.1.trans (by decide)

theorem runMain_dispatch (f : Flags) (fs : SysFiles) :
    runMain f fs = runDispatch (firstFlag f) fs := by
  obtain ⟨b1, b2, b3, b4, b5, b6⟩ := f
  cases b1 <;> cases b2 <;> cases b3 <;> cases b4 <;> cases b5 <;> cases b6 <;> rfl

/-- C9: the behaviour of `main` is a function of the first set flag in the
priority order battery, battery-state, battery-capacity, volume-level,
backlight, memory (`firstFlag`): any two flag sets with the same first set
flag behave identically on every environment (lower-priority flags are
silently ignored), and with no flag set the program prints exactly the
fixed multi-line usage text to standard output, nothing to standard error,
and exits successfully. -/
theorem spec_c9_dispatch :
    (∀ (f g : Flags) (fs : SysFiles),
      firstFlag f = firstFlag g → runMain f fs = runMain g fs) ∧
    (∀ (f : Flags) (fs : SysFiles), firstFlag f = none →
      runMain f fs = some ⟨[helpText], [], 0⟩) := by
  constructor
  · intro f g fs h
    rw [runMain_dispatch, runMain_dispatch, h]
  · intro f fs h
    rw [runMain_dispatch, h]
    rfl

/-- C9 witness: with all six flags set the run is identical to a
`--battery`-only run (the other five are ignored), and with no flags the
usage text is printed with exit code 0. -/
theorem spec_c9_witness :
    runMain flagsAll fsEmpty = runMain flagsBatteryOnly fsEmpty ∧
    runMain flagsNone fsEmpty = some ⟨[helpText], [], 0⟩ :=
  ⟨spec_c9_dispatch.1 flagsAll flagsBatteryOnly fsEmpty rfl,
   spec_c9_dispatch.2 flagsNone fsEmpty rfl⟩

/-- C10: a readable max_brightness file containing `"0"` parses
successfully to the integer 0 (so the `unwrap_or(1)` default does not
fire) and the backlight query divides by zero and panics; by contrast a
non-numeric file is a parse failure, the default 1 applies, and the query
returns normally. -/
theorem spec_c10_div_by_zero :
    parse_i32 (rustTrim (("0\n").toList)) = some 0 ∧
    get_brightness (some (("100\n").toList)) (some (("0\n").toList)) = QRes.panic ∧
    parse_i32 (("notanumber").toList) = none ∧
    get_brightness (some (("100\n").toList)) (some (("notanumber").toList)) =
      QRes.ok (("BL: 10000%").toList) := by
  decide
